import Mathlib

/-!
Verification of the core orchestrator of the rollup module bundler
(`src/unnamed/part_001`, the `rollup/index.ts` module): option
normalization and validation, the BUILD phase hook pairing, the
per-generate checks and chunk-optimization latch, asset finalization at
the end of `generateBundle`, the output-order comparator of
`createOutput`, and the output writer's file/side-map structure.

Pure validation code is embedded as `Except`-valued functions; the
promise pipeline of the BUILD phase is embedded as explicit result
passing together with a trace of the hook invocations it makes; the
output writer's concurrency structure is embedded as a record of issued
operations and completion dependencies.
-/

namespace Rollup

/-- An error value as the bundler throws it: the `error` helper throws the
properties object it is given, so a failure carries exactly the `code`,
`message` and `url` fields the call site supplied; a bare
`new Error(message)` carries only a message (no `code` field). -/
structure RollupErr where
  code : Option String := none
  message : String
  url : Option String := none
  deriving Repr, DecidableEq

/-- The `code` carried by a failed computation: `some c` when the
computation failed with an error whose `code` field is `c` (itself an
`Option`, since many errors are thrown without a code — `none` models a
plain `Error` with no `code` property), and `none` when it succeeded. -/
def errCode {α : Type} : Except RollupErr α → Option (Option String)
  | .error e => some e.code
  | .ok _ => none

/-- JavaScript truthiness of an optional string value: `undefined` and the
empty string are falsy, every other string is truthy. -/
def strTruthy : Option String → Bool
  | none => false
  | some s => s ≠ ""

/-- The `input` option: a single path, an array of paths, or an alias map
(`src/unnamed/part_000`, `InputOption`). -/
inductive InputEntry where
  | single (path : String)
  | paths (ps : List String)
  | named (entries : List (String × String))
  deriving Repr, DecidableEq

/-- The input-option fields the validation code of `getInputOptions` and
`checkInputOptions` reads (`src/unnamed/part_001`, lines 39–45 and
106–142).  The deprecated top-level hooks and the chunking toggles are
modelled by their truthiness. -/
structure InputOpts where
  input : InputEntry := .single "main.js"
  transform : Bool := false
  load : Bool := false
  resolveId : Bool := false
  resolveExternal : Bool := false
  inlineDynamicImports : Bool := false
  preserveModules : Bool := false
  manualChunks : Bool := false
  optimizeChunks : Bool := false
  deriving Repr, DecidableEq

/-- The output-option fields read by `checkOutputOptions`, the per-generate
checks and the `write` checks (`src/unnamed/part_001`).  `file`, `dir`,
`sourcemapFile`, `format` and `moduleId` are optional strings; `amd` is
the presence (truthiness) of the `amd` object. -/
structure OutputOpts where
  format : Option String := none
  file : Option String := none
  dir : Option String := none
  sourcemapFile : Option String := none
  amd : Bool := false
  moduleId : Option String := none
  deriving Repr, DecidableEq

/-- `checkInputOptions` (`src/unnamed/part_001`, lines 39–45): a plain
`Error` (no `code` property) when any of the four removed top-level hook
options is present. -/
def checkInputOptions (o : InputOpts) : Except RollupErr Unit :=
  if o.transform || o.load || o.resolveId || o.resolveExternal then
    .error { message := "The `transform`, `load`, `resolveId` and `resolveExternal` options are deprecated in favour of a unified plugin API. See https://github.com/rollup/rollup/wiki/Plugins for details" }
  else
    .ok ()

/-- `checkOutputOptions` (`src/unnamed/part_001`, lines 47–65).  Each
`error(...)` call throws, so the later checks run only when the earlier
ones pass; none of the four failure objects carries a `code` field.  The
source tests `options.format === 'es6'`, then the truthiness of
`options.format`, then the truthiness of `options.moduleId` with `options.amd`. -/
def checkOutputOptions (o : OutputOpts) : Except RollupErr Unit :=
  if o.format = some "es6" then
    .error { message := "The `es6` output format is deprecated – use `es` instead",
             url := some "https://rollupjs.org/#format-f-output-format-" }
  else if ¬ strTruthy o.format then
    .error { message := "You must specify options.format, which can be one of 'amd', 'cjs', 'system', 'esm', 'iife' or 'umd'",
             url := some "https://rollupjs.org/#format-f-output-format-" }
  else if strTruthy o.moduleId ∧ o.amd then
    .error { message := "Cannot have both options.amd and options.moduleId" }
  else
    .ok ()

/-- The multiple-inputs test of `getInputOptions` (`src/unnamed/part_001`,
lines 118–121): an array of more than one path, or an alias object with
more than one key (a single path string never matches). -/
def multipleInputs : InputEntry → Bool
  | .single _ => false
  | .paths ps => ps.length > 1
  | .named entries => entries.length > 1

/-- The mutually-exclusive-option validation of `getInputOptions`
(`src/unnamed/part_001`, lines 106–142), translated clause for clause:
the `preserveModules` checks sit in an `else if` branch that is reached
only when `inlineDynamicImports` is falsy, so the nested
`inlineDynamicImports` check inside it is unreachable (kept here exactly
as in the source). -/
def validateInputCombos (o : InputOpts) : Except RollupErr Unit :=
  if o.inlineDynamicImports then
    if o.manualChunks then
      .error { code := some "INVALID_OPTION",
               message := "\"manualChunks\" option is not supported for inlineDynamicImports." }
    else if o.optimizeChunks then
      .error { code := some "INVALID_OPTION",
               message := "\"optimizeChunks\" option is not supported for inlineDynamicImports." }
    else if multipleInputs o.input then
      .error { code := some "INVALID_OPTION",
               message := "Multiple inputs are not supported for inlineDynamicImports." }
    else
      .ok ()
  else if o.preserveModules then
    if o.inlineDynamicImports then
      .error { code := some "INVALID_OPTION",
               message := "preserveModules does not support the inlineDynamicImports option." }
    else if o.manualChunks then
      .error { code := some "INVALID_OPTION",
               message := "preserveModules does not support the manualChunks option." }
    else if o.optimizeChunks then
      .error { code := some "INVALID_OPTION",
               message := "preserveModules does not support the optimizeChunks option." }
    else
      .ok ()
  else
    .ok ()

/-- A loosely-typed configuration object, as a key/value association list
(only lookup semantics matter for the merge precedence). -/
abbrev OptMap := List (String × String)

/-- JavaScript property lookup on an object literal: the value under the
key, when present. -/
def jsLookup (m : OptMap) (k : String) : Option String :=
  (m.find? (fun p => p.1 == k)).map (fun p => p.2)

/-- Lookup semantics of the object-spread consolidation in
`normalizeOutputOptions` (`src/unnamed/part_001`, lines 444–446): the
source spreads `rawOutputOptions`, then `rawOutputOptions.output`, then
`inputOptions.output` into one object, and in a spread a later source
overwrites an earlier one, so a lookup tries the last spread first. -/
def consolidatedOutput (rawOutputOptions rawOutputNested inputOutput : OptMap)
    (k : String) : Option String :=
  (jsLookup inputOutput k).orElse fun _ =>
    (jsLookup rawOutputNested k).orElse fun _ =>
      jsLookup rawOutputOptions k

/-- The consolidation as the specification describes it (precedence highest
first: nested `.output`, top-level output fields, then the input-level
fallback) — stated here only to compare with `consolidatedOutput`, which
is translated from the source. -/
def specConsolidatedOutput (rawOutputOptions rawOutputNested inputOutput : OptMap)
    (k : String) : Option String :=
  (jsLookup rawOutputNested k).orElse fun _ =>
    (jsLookup rawOutputOptions k).orElse fun _ =>
      jsLookup inputOutput k

/-- A plugin as the BUILD-phase hook driver sees it: the settled outcome of
its `buildStart` hook (absent when the plugin defines none), and its
`buildEnd` hook as a function of the error argument (`src/unnamed/part_000`,
`Plugin`).  Hooks are modelled as already-settled promises, so a failing
hook is one that returns a rejection. -/
structure Plugin where
  buildStart : Option (Except RollupErr Unit) := none
  buildEnd : Option (Option RollupErr → Except RollupErr Unit) := none

/-- `Promise.all` over a list of settled promises: resolves when all
resolve, rejects with the first rejection in list order (the order in
which `Promise.all` observes already-settled promises). -/
def promiseAll : List (Except RollupErr Unit) → Except RollupErr Unit
  | [] => .ok ()
  | .ok _ :: rest => promiseAll rest
  | .error e :: _ => .error e

/-- `applyBuildStartHook` (`src/unnamed/part_001`, lines 78–82): every
plugin's `buildStart` is invoked (a missing hook contributes a resolved
value, as the falsy `plugin.buildStart &&` operand does) and the results
are joined with `Promise.all`. -/
def applyBuildStartHook (plugins : List Plugin) : Except RollupErr Unit :=
  promiseAll (plugins.map (fun p => p.buildStart.getD (.ok ())))

/-- `applyBuildEndHook` (`src/unnamed/part_001`, lines 84–88): every
plugin's `buildEnd` is invoked with the error argument and the results are
joined with `Promise.all`.  The first component records, per plugin that
has a `buildEnd` hook, the argument it was invoked with. -/
def applyBuildEndHook (plugins : List Plugin) (err : Option RollupErr) :
    List (Option RollupErr) × Except RollupErr Unit :=
  (plugins.filterMap (fun p => p.buildEnd.map (fun _ => err)),
   promiseAll (plugins.map (fun p =>
     match p.buildEnd with
     | some h => h err
     | none => .ok ())))

/-- Chunks are opaque to the orchestrator; a list of identifiers. -/
abbrev Chunks := List String

/-- The BUILD-phase promise chain of `rollup` (`src/unnamed/part_001`,
lines 162–180): `applyBuildStartHook`, then the graph build (given here by
its outcome, since the Graph is an external collaborator), then the
two-handler `.then`: on success `applyBuildEndHook(graph)` then the
chunks; on failure `applyBuildEndHook(graph, err)` then `throw err` — and
in either arm a rejection of the `buildEnd` join passes through the
`.then` unchanged, replacing the original error.  Returns the `buildEnd`
invocation trace and the settled outcome. -/
def buildPhase (plugins : List Plugin) (graphBuild : Except RollupErr Chunks) :
    List (Option RollupErr) × Except RollupErr Chunks :=
  match applyBuildStartHook plugins with
  | .error e =>
    let r := applyBuildEndHook plugins (some e)
    (r.1, match r.2 with
          | .ok _ => .error e
          | .error e2 => .error e2)
  | .ok _ =>
    match graphBuild with
    | .ok chunks =>
      let r := applyBuildEndHook plugins none
      (r.1, match r.2 with
            | .ok _ => .ok chunks
            | .error e2 => .error e2)
    | .error e =>
      let r := applyBuildEndHook plugins (some e)
      (r.1, match r.2 with
            | .ok _ => .error e
            | .error e2 => .error e2)

/-- An entry of the output bundle as `createOutput` sees it: a chunk with
its entry flag, or an asset (`src/unnamed/part_000`, `OutputChunk` and
`OutputAsset`; only the fields the comparator reads are kept). -/
inductive OutputFile where
  | chunk (fileName : String) (isEntry : Bool)
  | asset (fileName : String)
  deriving Repr, DecidableEq

/-- `isOutputAsset` (`src/unnamed/part_001`, lines 387–389). -/
def isOutputAsset : OutputFile → Bool
  | .asset _ => true
  | .chunk _ _ => false

/-- The `isEntry` field as the comparator reads it (false on assets, which
the comparator never reaches on that path). -/
def isEntryFile : OutputFile → Bool
  | .chunk _ e => e
  | .asset _ => false

/-- The sort comparator of `createOutput` (`src/unnamed/part_001`, lines
377–383), value for value: the last line of the source body,
`outputFileB.isEntry ? 1 : 0;`, is an expression statement without a
`return`, so on that path the comparator returns `undefined` — modelled as
`none`. -/
def outputComparator (a b : OutputFile) : Option Int :=
  if isOutputAsset a then (if isOutputAsset b then some 0 else some 1)
  else if isOutputAsset b then some (-1)
  else if isEntryFile a then (if isEntryFile b then some 0 else some (-1))
  else none

/-- The comparator as `Array.prototype.sort` consumes it: `SortCompare`
coerces the comparator result with `ToNumber`, and an `undefined` result
becomes `NaN`, which `SortCompare` turns into `+0`. -/
def sortCompare (a b : OutputFile) : Int :=
  match outputComparator a b with
  | some v => v
  | none => 0

/-- Stable insertion into a sorted prefix: the new element (which follows
the prefix elements in the original array) passes over an element only
when the comparator strictly orders it earlier, so comparator ties keep
the original order — the behaviour of the engine's stable
`Array.prototype.sort` under the given comparator. -/
def insertSorted (x : OutputFile) : List OutputFile → List OutputFile
  | [] => [x]
  | y :: ys => if sortCompare y x ≤ 0 then y :: insertSorted x ys else x :: y :: ys

/-- A stable sort under `sortCompare`, as insertion sort (the ECMAScript
sort with this comparator: stable, and consistent with every comparator
call it makes).  Because `outputComparator` is not a consistent comparison
function, ECMAScript leaves the resulting order implementation-defined;
this is one order every conforming stable implementation may produce. -/
def stableSort (l : List OutputFile) : List OutputFile :=
  l.foldl (fun acc x => insertSorted x acc) []

/-- `createOutput` (`src/unnamed/part_001`, lines 373–385) on the bundle's
value list: sort with the source comparator. -/
def createOutput (bundleValues : List OutputFile) : List OutputFile :=
  stableSort bundleValues

/-- An emitted asset (`src/unnamed/part_000`, `OutputAsset`, and §4.6 of
the data model): a name, a source slot (absent when emitted without a
source and never set), and a fileName slot (absent until finalized). -/
structure Asset where
  name : String
  source : Option String := none
  fileName : Option String := none
  deriving Repr, DecidableEq

/-- Modelled from the spec: the asset file-name template expansion of the
Asset Registry (`utils/assetHooks` is not under `src/`).  `[name]` is
replaced by the asset name and `[extname]` by its trailing extension; the
`[hash]` placeholder stands for the first characters of a content hash of
the source, abstracted here as the source length (the claims under proof
do not depend on the hash function, only on a name being produced). -/
def expandAssetName (template name source : String) : String :=
  ((template.replace "[name]" name).replace "[extname]" "").replace "[hash]"
    (toString source.length)

/-- Modelled from the spec: `finaliseAsset` of `utils/assetHooks` is not
under `src/`.  Per §4.6 it expands the file-name template and places the
asset into the bundle; an asset whose source was never provided cannot be
finalized, which per §7 and §8 fails with code `ASSET_SOURCE_MISSING`.
Returns the finalized asset and the bundle with it appended. -/
def finaliseAsset (template : String) (asset : Asset) (bundle : List Asset) :
    Except RollupErr (Asset × List Asset) :=
  match asset.source with
  | none =>
    .error { code := some "ASSET_SOURCE_MISSING",
             message := "Plugin error creating asset " ++ asset.name ++ " - no asset source set." }
  | some src =>
    let finalized : Asset := { asset with fileName := some (expandAssetName template asset.name src) }
    .ok (finalized, bundle ++ [finalized])

/-- A plugin as the `generateBundle` step sees it: its `generateBundle`
hook, modelled by its effect on the per-call scoped asset map (the hook
may emit assets and set asset sources through the derived context); absent
when the plugin defines none. -/
structure GeneratePlugin where
  generateBundle : Option (List Asset → List Asset) := none

/-- The combined effect of the `generateBundle` hooks on the scoped asset
snapshot (`src/unnamed/part_001`, lines 294–308): the snapshot of
`graph.assetsById` is shared by all hooks; the hooks' synchronous effects
land on it in plugin order. -/
def gbEffect (plugins : List GeneratePlugin) (assetsById : List Asset) : List Asset :=
  (plugins.filterMap (fun p => p.generateBundle)).foldl (fun acc h => h acc) assetsById

/-- The post-hook finalization loop (`src/unnamed/part_001`, lines
310–315): for each asset of the scoped map still without a fileName,
`finaliseAsset` is applied, growing the bundle — or failing. -/
def finaliseLoop (template : String) : List Asset → List Asset →
    Except RollupErr (List Asset)
  | [], bundle => .ok bundle
  | a :: rest, bundle =>
    if a.fileName = none then
      match finaliseAsset template a bundle with
      | .error e => .error e
      | .ok r => finaliseLoop template rest r.2
    else
      finaliseLoop template rest bundle

/-- The `generateBundle` step of `generate` (`src/unnamed/part_001`, lines
288–316): when no plugin has a `generateBundle` hook the step returns at
once (line 291) — the scoped snapshot is never built and the finalization
loop never runs; otherwise the hooks run on the scoped snapshot and every
asset still without a fileName is then finalized (or fails). -/
def runGenerateBundle (plugins : List GeneratePlugin) (assetsById : List Asset)
    (template : String) (bundle : List Asset) : Except RollupErr (List Asset) :=
  if (plugins.filterMap (fun p => p.generateBundle)).length = 0 then
    .ok bundle
  else
    finaliseLoop template (gbEffect plugins assetsById) bundle

/-- The chunk-optimization latch inside `generate` (`src/unnamed/part_001`,
lines 226–229): the pass runs only when the per-build `optimized` flag is
still false and the `optimizeChunks` input option is set, and running it
sets the flag.  Returns whether the pass ran, paired with the new flag. -/
def optimizeStep (optimizeChunksOpt : Bool) (optimized : Bool) : Bool × Bool :=
  if !optimized && optimizeChunksOpt then (true, true) else (false, optimized)

/-- The number of times the chunk-optimization pass runs over `n`
successive `generate`/`write` calls on one Build handle, starting from
latch value `optimized` (the Build initialises the latch to false,
`src/unnamed/part_001`, line 185). -/
def optimizeRunCount (optimizeChunksOpt : Bool) : Nat → Bool → Nat
  | 0, _ => 0
  | n + 1, optimized =>
    (if (optimizeStep optimizeChunksOpt optimized).1 then 1 else 0) +
      optimizeRunCount optimizeChunksOpt n (optimizeStep optimizeChunksOpt optimized).2

/-- The leading checks of `generate` (`src/unnamed/part_001`, lines
190–203): both `file` and `dir` being strings is rejected, then a chunk
count above one with format `umd` or `iife` is rejected; both rejections
carry code `INVALID_OPTION`. -/
def checkGenerateOutput (o : OutputOpts) (numChunks : Nat) : Except RollupErr Unit :=
  if o.file.isSome && o.dir.isSome then
    .error { code := some "INVALID_OPTION",
             message := "Build must set either output.file for a single-file build or output.dir when generating multiple chunks." }
  else if numChunks > 1 ∧ (o.format = some "umd" ∨ o.format = some "iife") then
    .error { code := some "INVALID_OPTION",
             message := "UMD and IIFE output formats are not supported for code-splitting builds." }
  else
    .ok ()

/-- The post-generate checks of `write` (`src/unnamed/part_001`, lines
340–356): they fire whenever the generated bundle has more than one key —
`Object.keys(result).length` counts every bundle entry, assets as well as
chunks.  `sourcemapFile` is tested for truthiness, `file` with
`typeof === 'string'`; the second message carries a conditional suffix
depending on the input shape and `inlineDynamicImports`. -/
def writeValidate (result : List OutputFile) (o : OutputOpts)
    (inputIsString inlineDyn : Bool) : Except RollupErr Unit :=
  if result.length > 1 then
    if strTruthy o.sourcemapFile then
      .error { code := some "INVALID_OPTION",
               message := "\"sourcemapFile\" is only supported for single-file builds." }
    else if o.file.isSome then
      .error { code := some "INVALID_OPTION",
               message := "When building multiple chunks, the output.dir option must be used, not output.file." ++
                 (if !inputIsString || inlineDyn then "" else " To inline dynamic imports set the inlineDynamicImports: true option.") }
    else
      .ok ()
  else
    .ok ()

/-- A file write issued by the output writer: the companion source-map
file, or the code/asset file itself. -/
inductive WriteOp where
  | mapFile (path : String)
  | codeFile (path : String)
  deriving Repr, DecidableEq

/-- The `sourcemap` output option: off, external (`true`), or inline. -/
inductive SourcemapOpt where
  | off
  | external
  | inlineMap
  deriving Repr, DecidableEq

/-- The concurrency structure of one `writeOutputFile` call: the
`writeFile` operations in the order the source issues them, the
operations its returned promise waits on before resolving, and the pairs
`(a, b)` for which the write of `b` is only issued after `a` has
completed. -/
structure WriteModel where
  issued : List WriteOp
  completionDeps : List WriteOp
  interWriteDeps : List (WriteOp × WriteOp)

/-- `writeOutputFile` for a chunk (`src/unnamed/part_001`, lines 391–433):
with an external source map, the map write is issued first (line 409,
`writeSourceMapPromise = writeFile(filename + \x22.map\x22, ...)`), the code
write is issued next (line 415) without awaiting the map write, and the
returned promise is `writeFile(filename, source).then(() =>
writeSourceMapPromise)` — it resolves only after both writes, but no
write waits for the other.  With an inline map or no map, only the code
file is written. -/
def writeOutputFileModel (sourcemap : SourcemapOpt) (hasMap : Bool)
    (fileName : String) : WriteModel :=
  if sourcemap ≠ .off ∧ hasMap then
    match sourcemap with
    | .inlineMap =>
      { issued := [.codeFile fileName],
        completionDeps := [.codeFile fileName],
        interWriteDeps := [] }
    | _ =>
      { issued := [.mapFile (fileName ++ ".map"), .codeFile fileName],
        completionDeps := [.codeFile fileName, .mapFile (fileName ++ ".map")],
        interWriteDeps := [] }
  else
    { issued := [.codeFile fileName],
      completionDeps := [.codeFile fileName],
      interWriteDeps := [] }

/-- A completion schedule assigns each write operation the time at which
its bytes become durable; it is admissible for a write model when it
respects every issue-after-completion dependency the code imposes. -/
def validSchedule (m : WriteModel) (t : WriteOp → Nat) : Prop :=
  ∀ d ∈ m.interWriteDeps, t d.1 < t d.2

/-- A concrete admissible schedule in which the code file becomes durable
strictly before the map file. -/
def codeFirstSchedule : WriteOp → Nat
  | .codeFile _ => 1
  | .mapFile _ => 2

/-- Once the latch is set, the optimization pass never runs again. -/
theorem optimizeRunCount_latched (flag : Bool) (n : Nat) :
    optimizeRunCount flag n true = 0 := by
  induction n with
  | zero => rfl
  | succ n ih => simp [optimizeRunCount, optimizeStep, ih]

/-- C6: over any number of `generate`/`write` calls on one Build handle,
the chunk-optimization pass executes at most once — the `optimized` latch
starts false and is set by the single run, whatever the `optimizeChunks`
input option is. -/
theorem c6_optimize_at_most_once (flag : Bool) (n : Nat) :
    optimizeRunCount flag n false ≤ 1 := by
  induction n with
  | zero => simp [optimizeRunCount]
  | succ n ih =>
    cases flag with
    | false => simpa [optimizeRunCount, optimizeStep] using ih
    | true => simp [optimizeRunCount, optimizeStep, optimizeRunCount_latched]

/-- C3 (code bug): the comparator of `createOutput` orders an entry chunk
before a shared chunk when the entry chunk is the first argument, but
returns `undefined` (coerced to `+0` by `SortCompare`) when the shared
chunk is the first argument — the missing `return` on the comparator's
last line.  The comparator is therefore inconsistent, the resulting order
is implementation-defined, and a conforming stable sort leaves a shared
chunk that precedes an entry chunk in bundle order in front of it,
violating the claimed entry-chunks-first order; the asset/chunk part of
the comparator, by contrast, does order a chunk before an asset. -/
theorem c3_createOutput_sort_bug :
    createOutput [OutputFile.chunk "shared.js" false, OutputFile.chunk "main.js" true] =
      [OutputFile.chunk "shared.js" false, OutputFile.chunk "main.js" true] ∧
    outputComparator (OutputFile.chunk "main.js" true) (OutputFile.chunk "shared.js" false) =
      some (-1) ∧
    outputComparator (OutputFile.chunk "shared.js" false) (OutputFile.chunk "main.js" true) =
      none ∧
    createOutput [OutputFile.asset "logo.png", OutputFile.chunk "main.js" true] =
      [OutputFile.chunk "main.js" true, OutputFile.asset "logo.png"] := by
  refine ⟨rfl, rfl, rfl, rfl⟩

/-- C4 (code bug): because the `preserveModules` validation block is the
`else if` of the `inlineDynamicImports` block, setting `preserveModules`
together with `inlineDynamicImports` (and nothing else) passes option
validation — the check with message "preserveModules does not support the
inlineDynamicImports option." is unreachable — while the `manualChunks`
and `optimizeChunks` combinations are rejected with `INVALID_OPTION` as
claimed. -/
theorem c4_preserveModules_checks_bug :
    validateInputCombos { preserveModules := true, inlineDynamicImports := true } = .ok () ∧
    errCode (validateInputCombos { preserveModules := true, manualChunks := true }) =
      some (some "INVALID_OPTION") ∧
    errCode (validateInputCombos { preserveModules := true, optimizeChunks := true }) =
      some (some "INVALID_OPTION") := by
  refine ⟨rfl, rfl, rfl⟩

/-- C9 (counterexample): `writeOutputFile` issues the map write first, but
issues the code write without awaiting it — the model carries no
inter-write dependency — so the schedule in which the code file becomes
durable strictly before the map file is admissible, refuting the claim
that the code file write completes only after the map write. -/
theorem c9_counterexample :
    (writeOutputFileModel .external true "out.js").issued =
      [WriteOp.mapFile "out.js.map", WriteOp.codeFile "out.js"] ∧
    validSchedule (writeOutputFileModel .external true "out.js") codeFirstSchedule ∧
    codeFirstSchedule (WriteOp.codeFile "out.js") <
      codeFirstSchedule (WriteOp.mapFile "out.js.map") := by
  refine ⟨rfl, ?_, by decide⟩
  intro d hd
  simp [writeOutputFileModel] at hd

/-- C9 (amended): with an external source map, the map write is issued
before the code write, and the per-file write is considered complete only
after both the code write and the map write have completed; but the two
writes proceed concurrently — the code imposes no completion ordering
between them. -/
theorem c9_write_ordering_amended (f : String) :
    (writeOutputFileModel .external true f).issued =
      [WriteOp.mapFile (f ++ ".map"), WriteOp.codeFile f] ∧
    (writeOutputFileModel .external true f).completionDeps =
      [WriteOp.codeFile f, WriteOp.mapFile (f ++ ".map")] ∧
    (writeOutputFileModel .external true f).interWriteDeps = [] := by
  refine ⟨rfl, rfl, rfl⟩

/-- C1 (counterexample): for a key present in all three sources, the
consolidation of `normalizeOutputOptions` yields the input-level value —
a later spread overwrites an earlier one — while the claimed precedence
(nested `.output` highest) would yield the nested value. -/
theorem c1_counterexample :
    consolidatedOutput [("format", "cjs")] [("format", "es")] [("format", "amd")] "format" =
      some "amd" ∧
    specConsolidatedOutput [("format", "cjs")] [("format", "es")] [("format", "amd")] "format" =
      some "es" ∧
    (some "amd" : Option String) ≠ some "es" := by
  refine ⟨rfl, rfl, by decide⟩

/-- C1 (amended): the consolidation precedence, highest first, is the
input-level `output` fallback, then the nested `.output` object of the
raw output options, then the top-level fields of the raw output options —
`inputOptions.output` is spread last and wins every collision. -/
theorem c1_output_merge_precedence_amended (raw nested inp : OptMap) (k : String) :
    (∀ v, jsLookup inp k = some v → consolidatedOutput raw nested inp k = some v) ∧
    (jsLookup inp k = none → ∀ v, jsLookup nested k = some v →
      consolidatedOutput raw nested inp k = some v) ∧
    (jsLookup inp k = none → jsLookup nested k = none →
      consolidatedOutput raw nested inp k = jsLookup raw k) := by
  refine ⟨?_, ?_, ?_⟩
  · intro v hv
    simp [consolidatedOutput, hv, Option.orElse]
  · intro hi v hv
    simp [consolidatedOutput, hi, hv, Option.orElse]
  · intro hi hn
    simp [consolidatedOutput, hi, hn, Option.orElse]

/-- C1 (witness): the amended precedence at concrete maps — with no
input-level entry for the key, the nested `.output` value wins over the
top-level one. -/
theorem c1_output_merge_precedence_witness :
    consolidatedOutput [("format", "cjs")] [("format", "es")] [("name", "bundle")] "format" =
      some "es" := by
  exact (c1_output_merge_precedence_amended [("format", "cjs")] [("format", "es")]
    [("name", "bundle")] "format").2.1 rfl "es" rfl

/-- Every entry of the `buildEnd` invocation trace is the argument the
hooks were invoked with. -/
theorem buildEndTrace_mem (plugins : List Plugin) (err : Option RollupErr) :
    ∀ a ∈ (applyBuildEndHook plugins err).1, a = err := by
  intro a ha
  simp only [applyBuildEndHook, List.mem_filterMap] at ha
  obtain ⟨p, _, hp⟩ := ha
  cases h : p.buildEnd with
  | none => simp [h] at hp
  | some f => simp [h] at hp; exact hp.symm

/-- The `buildEnd` trace has one entry per plugin that defines the hook. -/
theorem buildEndTrace_length (plugins : List Plugin) (err : Option RollupErr) :
    (applyBuildEndHook plugins err).1.length =
      (plugins.filter (fun p => p.buildEnd.isSome)).length := by
  simp only [applyBuildEndHook]
  induction plugins with
  | nil => rfl
  | cons p ps ih =>
    cases h : p.buildEnd <;>
      simp [List.filterMap_cons, List.filter_cons, h, ih]

/-- C2 (counterexample): with one plugin whose `buildEnd` itself rejects,
a graph-build failure is still reported to `buildEnd`, but the future
returned by `rollup` rejects with the `buildEnd` failure — the rejection
of `applyBuildEndHook(graph, err)` passes through the
`.then(() => { throw err })` handler — not with the original error. -/
theorem c2_counterexample :
    buildPhase [{ buildEnd := some (fun _ => .error { message := "buildEnd failed" }) }]
        (.error { message := "graph build failed" }) =
      ([some { message := "graph build failed" }],
        .error { message := "buildEnd failed" }) ∧
    ({ message := "buildEnd failed" } : RollupErr) ≠ { message := "graph build failed" } := by
  refine ⟨rfl, by decide⟩

/-- C2 (amended): when `buildStart` succeeded and the graph build fails
with `e`, every plugin's `buildEnd` hook is invoked with `e` before the
returned future settles; the future then rejects with `e` when every
`buildEnd` hook succeeds, but when some `buildEnd` hook rejects, the first
`buildEnd` rejection replaces `e` as the rejection value. -/
theorem c2_buildEnd_on_failure_amended (plugins : List Plugin) (e : RollupErr)
    (hstart : applyBuildStartHook plugins = .ok ()) :
    (∀ a ∈ (buildPhase plugins (.error e)).1, a = some e) ∧
    (buildPhase plugins (.error e)).1.length =
      (plugins.filter (fun p => p.buildEnd.isSome)).length ∧
    ((applyBuildEndHook plugins (some e)).2 = .ok () →
      (buildPhase plugins (.error e)).2 = .error e) ∧
    (∀ e2 : RollupErr, (applyBuildEndHook plugins (some e)).2 = .error e2 →
      (buildPhase plugins (.error e)).2 = .error e2) := by
  have hb : buildPhase plugins (.error e) =
      ((applyBuildEndHook plugins (some e)).1,
        match (applyBuildEndHook plugins (some e)).2 with
        | .ok _ => .error e
        | .error e2 => .error e2) := by
    simp only [buildPhase, hstart]
  refine ⟨?_, ?_, ?_, ?_⟩
  · intro a ha
    rw [hb] at ha
    exact buildEndTrace_mem plugins (some e) a ha
  · rw [hb]
    exact buildEndTrace_length plugins (some e)
  · intro h2
    rw [hb]
    simp [h2]
  · intro e2 h2
    rw [hb]
    simp [h2]

/-- C2 (witness): the amended behaviour at one plugin whose `buildEnd`
succeeds — the hook is invoked with the build failure and the failure is
re-propagated. -/
theorem c2_buildEnd_on_failure_witness :
    (∀ a ∈ (buildPhase [{ buildEnd := some (fun _ => (.ok () : Except RollupErr Unit)) }]
        (.error { message := "boom" })).1, a = some { message := "boom" }) ∧
    (buildPhase [{ buildEnd := some (fun _ => (.ok () : Except RollupErr Unit)) }]
        (.error { message := "boom" })).2 = .error { message := "boom" } := by
  have h := c2_buildEnd_on_failure_amended
    [{ buildEnd := some (fun _ => (.ok () : Except RollupErr Unit)) }]
    { message := "boom" } rfl
  exact ⟨h.1, h.2.2.1 rfl⟩

/-- C7 (counterexample): each of the four validation failures does occur,
but none carries a `code` field at all — the first and fourth are plain
`Error`s, the second and third are thrown with only `message` and `url` —
so none carries `UNSUPPORTED_LEGACY_OPTION`, `FORMAT_DEPRECATED`,
`FORMAT_REQUIRED` or `CONFLICTING_OPTION`. -/
theorem c7_counterexample :
    errCode (checkInputOptions { transform := true }) = some none ∧
    errCode (checkOutputOptions { format := some "es6" }) = some none ∧
    errCode (checkOutputOptions {}) = some none ∧
    errCode (checkOutputOptions { format := some "amd", amd := true, moduleId := some "m" }) =
      some none ∧
    (some (none : Option String)) ≠ some (some "UNSUPPORTED_LEGACY_OPTION") ∧
    (some (none : Option String)) ≠ some (some "FORMAT_DEPRECATED") ∧
    (some (none : Option String)) ≠ some (some "FORMAT_REQUIRED") ∧
    (some (none : Option String)) ≠ some (some "CONFLICTING_OPTION") := by
  refine ⟨rfl, rfl, rfl, rfl, by decide, by decide, by decide, by decide⟩

/-- C7 (amended): option validation fails at each trigger the claim
names — legacy top-level hooks, `format == "es6"`, absent (falsy) format,
and `amd` together with `moduleId` — but every one of these failures is
thrown without any `code` field (`errCode` returns `some none`: a
failure whose `code` is absent). -/
theorem c7_validation_errors_amended :
    (∀ o : InputOpts, (o.transform || o.load || o.resolveId || o.resolveExternal) = true →
      errCode (checkInputOptions o) = some none) ∧
    (∀ o : OutputOpts, o.format = some "es6" →
      errCode (checkOutputOptions o) = some none) ∧
    (∀ o : OutputOpts, strTruthy o.format = false →
      errCode (checkOutputOptions o) = some none) ∧
    (∀ o : OutputOpts, strTruthy o.format = true → o.format ≠ some "es6" →
      strTruthy o.moduleId = true → o.amd = true →
      errCode (checkOutputOptions o) = some none) := by
  refine ⟨?_, ?_, ?_, ?_⟩
  · intro o h
    simp [checkInputOptions, h, errCode]
  · intro o h
    simp [checkOutputOptions, h, errCode]
  · intro o h
    have hne : o.format ≠ some "es6" := by
      intro he
      rw [he] at h
      simp [strTruthy] at h
    simp [checkOutputOptions, hne, h, errCode]
  · intro o h1 h2 h3 h4
    simp [checkOutputOptions, h2, h1, h3, h4, errCode]

/-- C7 (witness): the amended statement at concrete option objects, one
per trigger. -/
theorem c7_validation_errors_witness :
    errCode (checkInputOptions { load := true }) = some none ∧
    errCode (checkOutputOptions { format := some "es6", file := some "x.js" }) = some none ∧
    errCode (checkOutputOptions { format := some "" }) = some none ∧
    errCode (checkOutputOptions { format := some "umd", amd := true, moduleId := some "mid" }) =
      some none := by
  refine ⟨c7_validation_errors_amended.1 _ rfl,
    c7_validation_errors_amended.2.1 _ rfl,
    c7_validation_errors_amended.2.2.1 _ rfl,
    c7_validation_errors_amended.2.2.2 _ rfl (by decide) rfl rfl⟩

/-- When some asset of the list has neither a fileName nor a source, the
finalization loop fails with `ASSET_SOURCE_MISSING` (assets before it
either are skipped or finalize successfully). -/
theorem finaliseLoop_error_of_sourceless (template : String) :
    ∀ (assets bundle : List Asset),
      (∃ a ∈ assets, a.fileName = none ∧ a.source = none) →
      errCode (finaliseLoop template assets bundle) = some (some "ASSET_SOURCE_MISSING") := by
  intro assets
  induction assets with
  | nil =>
    intro bundle h
    simp at h
  | cons a rest ih =>
    intro bundle h
    obtain ⟨b, hb, hbfn, hbsrc⟩ := h
    by_cases hafn : a.fileName = none
    · simp only [finaliseLoop, if_pos hafn]
      cases hasrc : a.source with
      | none => simp [finaliseAsset, hasrc, errCode]
      | some s =>
        simp only [finaliseAsset, hasrc]
        apply ih
        rcases List.mem_cons.mp hb with hba | hbm
        · exact absurd (hba ▸ hbsrc : a.source = none) (by simp [hasrc])
        · exact ⟨b, hbm, hbfn, hbsrc⟩
    · simp only [finaliseLoop, if_neg hafn]
      apply ih
      rcases List.mem_cons.mp hb with hba | hbm
      · exact absurd (hba ▸ hbfn : a.fileName = none) hafn
      · exact ⟨b, hbm, hbfn, hbsrc⟩

/-- The finalization loop only ever appends assets whose fileName has just
been assigned: when it completes, a bundle whose assets all had fileNames
still has that property. -/
theorem finaliseLoop_fileNames (template : String) :
    ∀ (assets bundle b2 : List Asset),
      (∀ a ∈ bundle, a.fileName.isSome = true) →
      finaliseLoop template assets bundle = .ok b2 →
      ∀ a ∈ b2, a.fileName.isSome = true := by
  intro assets
  induction assets with
  | nil =>
    intro bundle b2 hinv h
    simp only [finaliseLoop] at h
    cases h
    exact hinv
  | cons a rest ih =>
    intro bundle b2 hinv h
    by_cases hafn : a.fileName = none
    · simp only [finaliseLoop, if_pos hafn] at h
      cases hasrc : a.source with
      | none => simp [finaliseAsset, hasrc] at h
      | some s =>
        simp only [finaliseAsset, hasrc] at h
        refine ih _ b2 ?_ h
        intro x hx
        rcases List.mem_append.mp hx with hxb | hxn
        · exact hinv x hxb
        · rw [List.mem_singleton.mp hxn]
          rfl
    · simp only [finaliseLoop, if_neg hafn] at h
      exact ih bundle b2 hinv h

/-- C5 (counterexample): an asset emitted without a source and never set
does not fail a generate call when no plugin registers a `generateBundle`
hook — the step returns before the `ASSET_SOURCE_MISSING` finalization
loop runs, and the generate call completes with the sourceless asset still
pending and without a fileName. -/
theorem c5_counterexample :
    ({ name := "logo.png" } : Asset).source = none ∧
    ({ name := "logo.png" } : Asset).fileName = none ∧
    runGenerateBundle [{ generateBundle := none }] [{ name := "logo.png" }]
      "assets/[name]-[hash][extname]" [] = .ok [] := by
  refine ⟨rfl, rfl, rfl⟩

/-- C5 (amended): when at least one plugin registers a `generateBundle`
hook, an asset left with neither a fileName nor a source at the end of the
hooks fails the generate call with `ASSET_SOURCE_MISSING`; and every
asset the step puts into the bundle has an assigned fileName (with no
`generateBundle` hooks the finalization check is skipped entirely, as the
counterexample shows). -/
theorem c5_asset_source_missing_amended (plugins : List GeneratePlugin)
    (assetsById bundle : List Asset) (template : String) :
    ((plugins.filterMap (fun p => p.generateBundle)).length ≠ 0 →
      (∃ a ∈ gbEffect plugins assetsById, a.fileName = none ∧ a.source = none) →
      errCode (runGenerateBundle plugins assetsById template bundle) =
        some (some "ASSET_SOURCE_MISSING")) ∧
    ((∀ a ∈ bundle, a.fileName.isSome = true) →
      ∀ b2, runGenerateBundle plugins assetsById template bundle = .ok b2 →
        ∀ a ∈ b2, a.fileName.isSome = true) := by
  constructor
  · intro hne hbad
    simp only [runGenerateBundle, if_neg hne]
    exact finaliseLoop_error_of_sourceless template _ bundle hbad
  · intro hinv b2 h
    by_cases hz : (plugins.filterMap (fun p => p.generateBundle)).length = 0
    · simp only [runGenerateBundle, if_pos hz] at h
      cases h
      exact hinv
    · simp only [runGenerateBundle, if_neg hz] at h
      exact finaliseLoop_fileNames template _ bundle b2 hinv h

/-- C5 (witness): with one `generateBundle` plugin (of identity effect)
and one sourceless pending asset, the generate call fails with
`ASSET_SOURCE_MISSING`. -/
theorem c5_asset_source_missing_witness :
    errCode (runGenerateBundle [{ generateBundle := some (fun a => a) }]
      [{ name := "logo.png" }] "assets/[name]-[hash][extname]" []) =
      some (some "ASSET_SOURCE_MISSING") := by
  exact (c5_asset_source_missing_amended [{ generateBundle := some (fun a => a) }]
    [{ name := "logo.png" }] [] "assets/[name]-[hash][extname]").1
    (Nat.one_ne_zero) ⟨{ name := "logo.png" }, List.mem_singleton.mpr rfl, rfl, rfl⟩

/-- C8: a generate call rejects with `INVALID_OPTION` when both `file` and
`dir` are strings; it rejects with `INVALID_OPTION` when more than one
chunk was built and the format is `umd` or `iife`; and with exactly one
chunk a `umd`/`iife` generate call passes both checks (provided `file` and
`dir` are not both set, which the first check would reject). -/
theorem c8_generate_checks (o : OutputOpts) (numChunks : Nat) :
    (o.file.isSome = true → o.dir.isSome = true →
      errCode (checkGenerateOutput o numChunks) = some (some "INVALID_OPTION")) ∧
    (1 < numChunks → (o.format = some "umd" ∨ o.format = some "iife") →
      errCode (checkGenerateOutput o numChunks) = some (some "INVALID_OPTION")) ∧
    ((o.format = some "umd" ∨ o.format = some "iife") →
      ¬(o.file.isSome = true ∧ o.dir.isSome = true) →
      checkGenerateOutput o 1 = .ok ()) := by
  refine ⟨?_, ?_, ?_⟩
  · intro h1 h2
    simp [checkGenerateOutput, h1, h2, errCode]
  · intro h1 h2
    by_cases hfd : o.file.isSome && o.dir.isSome
    · simp [checkGenerateOutput, hfd, errCode]
    · simp [checkGenerateOutput, hfd, h1, h2, errCode]
  · intro hf hnd
    have hfd : (o.file.isSome && o.dir.isSome) = false := by
      cases h1 : o.file.isSome <;> cases h2 : o.dir.isSome <;> simp_all
    simp [checkGenerateOutput, hfd]

/-- C8 (witness): the three parts at concrete inputs — `file` and `dir`
both set; two chunks under `umd`; one chunk under `umd` with only `file`
set. -/
theorem c8_generate_checks_witness :
    errCode (checkGenerateOutput { format := some "umd", file := some "o.js", dir := some "d" } 1) =
      some (some "INVALID_OPTION") ∧
    errCode (checkGenerateOutput { format := some "umd", dir := some "d" } 2) =
      some (some "INVALID_OPTION") ∧
    checkGenerateOutput { format := some "umd", file := some "o.js" } 1 = .ok () := by
  refine ⟨(c8_generate_checks _ 1).1 rfl rfl,
    (c8_generate_checks _ 2).2.1 (by decide) (Or.inl rfl),
    (c8_generate_checks _ 1).2.2 (Or.inl rfl) (by decide)⟩

/-- C10: the post-generate checks of `write` count every bundle entry —
assets as well as chunks — so a bundle with exactly one chunk and at least
one asset has more than one key, and a `write` with `output.file` set (or
with a truthy `sourcemapFile`) fails with `INVALID_OPTION` even though
only one chunk exists. -/
theorem c10_write_counts_assets (result : List OutputFile) (o : OutputOpts)
    (inputIsString inlineDyn : Bool)
    (hchunks : result.countP (fun f => !isOutputAsset f) = 1)
    (hassets : 1 ≤ result.countP (fun f => isOutputAsset f))
    (hopt : o.file.isSome = true ∨ strTruthy o.sourcemapFile = true) :
    errCode (writeValidate result o inputIsString inlineDyn) = some (some "INVALID_OPTION") := by
  have key : result.length =
      result.countP (fun f => isOutputAsset f) +
        result.countP (fun f => !isOutputAsset f) := by
    simpa using List.length_eq_countP_add_countP (fun f => isOutputAsset f) result
  have hlen : 1 < result.length := by omega
  by_cases hsm : strTruthy o.sourcemapFile = true
  · simp [writeValidate, hlen, hsm, errCode]
  · have hf : o.file.isSome = true := hopt.resolve_right hsm
    simp [writeValidate, hlen, hsm, hf, errCode]

/-- C10 (witness): a bundle of one entry chunk and one asset, written with
`output.file` set, fails with `INVALID_OPTION`. -/
theorem c10_write_counts_assets_witness :
    errCode (writeValidate [OutputFile.chunk "main.js" true, OutputFile.asset "logo.png"]
      { format := some "es", file := some "out.js" } true false) =
      some (some "INVALID_OPTION") := by
  exact c10_write_counts_assets _ _ true false rfl (by decide) (Or.inl rfl)

end Rollup
